import Mathlib

/-!
# LabFace attendance core — shallow embedding

A shallow embedding of the attendance/session/presence modules of the
LabFace backend (`backend/src/routes/presence.ts`,
`backend/src/routes/attendance.ts`, the class/session router, and the
`attendance` table schema with its `UNIQUE(session_id, student_id)` key),
together with theorems settling the specification's claims about them.

Timestamps are modelled as rationals (milliseconds since epoch), statuses
and event types as the strings the code stores (`"present"`, `"late"`,
`"absent"`, `"in"`, `"out"`).  All tables are per-session lists of rows;
the database's conflict behaviour (`ON DUPLICATE KEY UPDATE` for the
knex `.onConflict(...).merge()` upsert, a hard duplicate-key error for a
plain `.insert`) is embedded explicitly in each operation.
-/

namespace LabFace

/-- One row of the `attendance` table for a fixed session, as created by the
schema: status string, check-in/check-out timestamps, presence minutes and
selfie URL.  The `(session_id, student_id)` unique key is represented by the
`student_id` field alone since the session is fixed. -/
structure AttRow where
  student_id : String
  status : String
  checkin_ts : Option ℚ
  checkout_ts : Option ℚ
  presence_minutes : Option ℚ
  selfie_url : Option String
deriving DecidableEq, Repr

/-- One row of the `presence_events` append-only log for a fixed session.
`image_url` is the only member of the JSON `details` column the handlers
ever read back (`details?.image_url`). -/
structure PresenceEvent where
  student_id : String
  event_type : String
  event_ts : ℚ
  source : String
  image_url : Option String
deriving DecidableEq, Repr

/-- The state the presence ingestor touches: the event log and the
attendance projection of one session. -/
structure PresenceState where
  events : List PresenceEvent
  attendance : List AttRow
deriving DecidableEq, Repr

/-- `isStudentLate` from `presence.ts` / `attendance.ts`: the difference
between the current wall-clock (which is the event's timestamp at
ingestion) and the session start, in minutes, strictly exceeds the
configured late-threshold minutes. -/
def isStudentLate (now sessionStart lateThresholdMinutes : ℚ) : Bool :=
  decide ((now - sessionStart) / (1000 * 60) > lateThresholdMinutes)

/-- The status chosen for an accepted ENTER event:
`const status = isLate ? 'late' : 'present'`. -/
def resolveStatus (now sessionStart lateThresholdMinutes : ℚ) : String :=
  if isStudentLate now sessionStart lateThresholdMinutes then ("late") else ("present")

/-- The knex upsert
`insert({session_id, student_id, status, checkin_ts, selfie_url}).onConflict(['session_id','student_id']).merge()`
against the `UNIQUE(session_id, student_id)` key: if a row for the student
exists, every inserted column (status, checkin_ts, selfie_url) overwrites
the stored one while the remaining columns (checkout_ts, presence_minutes)
are untouched; otherwise a fresh row is appended. -/
def upsertAttendance (student status : String) (now : ℚ)
    (selfie : Option String) (att : List AttRow) : List AttRow :=
  if att.any (fun r => r.student_id == student) then
    att.map (fun r =>
      if r.student_id == student then
        { r with status := status, checkin_ts := some now, selfie_url := selfie }
      else r)
  else
    att ++ [{ student_id := student, status := status, checkin_ts := some now,
              checkout_ts := none, presence_minutes := none, selfie_url := selfie }]

/-- The body of `router.post('/')` in `presence.ts` after the session/open
checks: append the presence event; on `"in"` resolve the status and run the
merge-upsert; on `"out"` set `checkout_ts` for the matching rows; any other
event type only appends the event. -/
def recordPresence (now sessionStart lateThreshold : ℚ) (student : String)
    (event_type source : String) (image_url : Option String)
    (s : PresenceState) : PresenceState :=
  let ev : PresenceEvent :=
    { student_id := student, event_type := event_type, event_ts := now,
      source := source, image_url := image_url }
  if event_type == "in" then
    { events := s.events ++ [ev],
      attendance := upsertAttendance student
        (resolveStatus now sessionStart lateThreshold) now image_url s.attendance }
  else if event_type == "out" then
    { events := s.events ++ [ev],
      attendance := s.attendance.map (fun r =>
        if r.student_id == student then { r with checkout_ts := some now } else r) }
  else
    { events := s.events ++ [ev], attendance := s.attendance }

/-- A sequence of presence events for one `(session, participant)` pair,
each given as (event type string, timestamp), folded through the ingestor. -/
def runEvents (sessionStart lateThreshold : ℚ) (student : String)
    (evs : List (String × ℚ)) (s : PresenceState) : PresenceState :=
  evs.foldl (fun st e =>
    recordPresence e.2 sessionStart lateThreshold student e.1 ("cctv") none st) s

/-- Number of attendance rows stored for the given student. -/
def rowCount (student : String) (att : List AttRow) : Nat :=
  att.countP (fun r => r.student_id == student)

/-- One row of the `sessions` table: class reference, start timestamp,
nullable end timestamp, status string (`"open"` / `"closed"`). -/
structure Session where
  session_id : Nat
  class_id : Nat
  start_ts : ℚ
  end_ts : Option ℚ
  status : String
deriving DecidableEq, Repr

/-- The session manager's state: the `sessions` table, the auto-increment
counter for `session_id`, and the log of `broadcastSessionStatus` messages
sent on the realtime channel (session id, lifecycle string). -/
structure SessionState where
  sessions : List Session
  nextId : Nat
  broadcasts : List (Nat × String)
deriving DecidableEq, Repr

/-- Error responses of the session routes: `conflict` is the 400
"Session already active for this class", `notFound` the 400
"No active session found". -/
inductive SessErr where
  | conflict
  | notFound
deriving DecidableEq, Repr

/-- `router.post('/:id/start')` from the class/session router: reject when a
session with `status = 'open'` exists for the class, otherwise insert a new
open session with the current timestamp and broadcast "started". -/
def startSession (classId : Nat) (now : ℚ) (st : SessionState) :
    Except SessErr SessionState :=
  if st.sessions.any (fun s => s.class_id == classId && s.status == "open") then
    Except.error SessErr.conflict
  else
    Except.ok
      { sessions := st.sessions ++
          [{ session_id := st.nextId, class_id := classId, start_ts := now,
             end_ts := none, status := ("open") }],
        nextId := st.nextId + 1,
        broadcasts := st.broadcasts ++ [(st.nextId, ("started"))] }

/-- `router.post('/:id/stop')`: find the open session of the class; if none,
fail; otherwise set its `end_ts` to the current timestamp and its status to
`"closed"`, and broadcast "stopped" for that session. -/
def stopSession (classId : Nat) (now : ℚ) (st : SessionState) :
    Except SessErr SessionState :=
  match st.sessions.find? (fun s => s.class_id == classId && s.status == "open") with
  | none => Except.error SessErr.notFound
  | some act =>
    Except.ok
      { sessions := st.sessions.map (fun s =>
          if s.session_id == act.session_id then
            { s with end_ts := some now, status := ("closed") }
          else s),
        nextId := st.nextId,
        broadcasts := st.broadcasts ++ [(act.session_id, ("stopped"))] }

/-- A session-lifecycle operation: a start or a stop request for a class at
some wall-clock time. -/
inductive SessOp where
  | start (classId : Nat) (now : ℚ)
  | stop (classId : Nat) (now : ℚ)
deriving DecidableEq, Repr

/-- Apply one lifecycle operation; a failed operation leaves the state
unchanged (the route returns the error response without writing). -/
def applySessOp (op : SessOp) (st : SessionState) : SessionState :=
  match op with
  | SessOp.start c t =>
    match startSession c t st with
    | Except.ok st' => st'
    | Except.error _ => st
  | SessOp.stop c t =>
    match stopSession c t st with
    | Except.ok st' => st'
    | Except.error _ => st

/-- The state with no sessions. -/
def initialSessionState : SessionState :=
  { sessions := [], nextId := 1, broadcasts := [] }

/-- Run a sequence of lifecycle operations from the empty state. -/
def runSessOps (ops : List SessOp) : SessionState :=
  ops.foldl (fun st op => applySessOp op st) initialSessionState

/-- Number of sessions of the class with status `"open"`. -/
def openCount (classId : Nat) (st : SessionState) : Nat :=
  st.sessions.countP (fun s => s.class_id == classId && s.status == "open")

/-- Database error surfaced by a plain (non-upserting) insert. -/
inductive DbErr where
  | duplicateKey
deriving DecidableEq, Repr

/-- The absent set computed by `router.post('/sessions/:session_id/force-absent')`:
enrolled students minus those whose attendance row for the session has
status `'present'` or `'late'` (rows with any other status do not count). -/
def absentSet (enrolled : List String) (att : List AttRow) : List String :=
  let presentIds :=
    (att.filter (fun r => r.status == "present" || r.status == "late")).map
      (fun r => r.student_id)
  enrolled.filter (fun s => !(presentIds.contains s))

/-- The force-absent (reconciliation) handler's effect on the attendance
table of the session: if the absent set is nonempty, bulk-insert one row per
absent student with status `'absent'` and `checkin_ts: new Date()`, via a
plain `db('attendance').insert(...)`.  The insert carries no
`onConflict` clause, so it raises a duplicate-key error — and, being a
single statement, inserts nothing — whenever any targeted student already
has a row under the `UNIQUE(session_id, student_id)` key. -/
def forceAbsent (now : ℚ) (enrolled : List String) (att : List AttRow) :
    Except DbErr (List AttRow) :=
  let absents := absentSet enrolled att
  if absents.isEmpty then Except.ok att
  else if absents.any (fun s => att.any (fun r => r.student_id == s)) then
    Except.error DbErr.duplicateKey
  else
    Except.ok (att ++ absents.map (fun s =>
      { student_id := s, status := ("absent"), checkin_ts := some now,
        checkout_ts := none, presence_minutes := none, selfie_url := none }))

/-- The stop route's full effect on (session state, attendance table of the
class's open session): it closes the session and broadcasts, and leaves the
attendance table untouched — the handler contains no reconciliation call. -/
def stopHandler (classId : Nat) (now : ℚ) (st : SessionState)
    (att : List AttRow) : Except SessErr (SessionState × List AttRow) :=
  (stopSession classId now st).map (fun st' => (st', att))

/-- Modelled from the spec (§4.1 `stop`): a stop that, on success, also
triggers the Reconciliation job for the stopped session; a reconciliation
failure does not undo the close.  This definition exists only to be compared
with `stopHandler`, the embedding of the actual stop route. -/
def stopWithReconcileSpec (classId : Nat) (now : ℚ) (st : SessionState)
    (enrolled : List String) (att : List AttRow) :
    Except SessErr (SessionState × List AttRow) :=
  (stopSession classId now st).map (fun st' =>
    match forceAbsent now enrolled att with
    | Except.ok att' => (st', att')
    | Except.error _ => (st', att))

/-- The decision returned by the ML face-match collaborator: `matched` flag
and the matched student's id (`score`/`confidence` are returned too but the
handler's guard only reads these two fields). -/
structure MatchResult where
  matched : Bool
  student_id : String
deriving DecidableEq, Repr

/-- Responses of the check-in route: 200 with the resolved status, 400
"Face recognition failed", or 500 "Face recognition service unavailable". -/
inductive CheckinResp where
  | ok (status : String)
  | matchFailed
  | mlError
deriving DecidableEq, Repr

/-- `router.post('/checkin')` from `attendance.ts`, after the session/open
check and the image upload: call the ML service (`none` models a failed
call); on `matched && student_id === req.user.id`, resolve the status,
merge-upsert the attendance row and append the presence event; otherwise
answer with a failure response and write nothing to either table. -/
def checkin (ml : Option MatchResult) (caller : String)
    (now sessionStart lateThreshold : ℚ) (imageUrl : String)
    (s : PresenceState) : CheckinResp × PresenceState :=
  match ml with
  | none => (CheckinResp.mlError, s)
  | some r =>
    if r.matched && r.student_id == caller then
      let status := resolveStatus now sessionStart lateThreshold
      (CheckinResp.ok status,
       { events := s.events ++
           [{ student_id := caller, event_type := ("in"), event_ts := now,
              source := ("face"), image_url := some imageUrl }],
         attendance :=
           upsertAttendance caller status now (some imageUrl) s.attendance })
    else (CheckinResp.matchFailed, s)

end LabFace

namespace LabFace

/-! ## Helper lemmas on `countP` -/

theorem countP_map_eq {α : Type} (l : List α) (f : α → α) (p : α → Bool)
    (h : ∀ x, p (f x) = p x) : (l.map f).countP p = l.countP p := by
  induction l with
  | nil => rfl
  | cons a t ih => simp [List.countP_cons, h, ih]

theorem countP_map_le {α : Type} (l : List α) (f : α → α) (p : α → Bool)
    (h : ∀ x, p (f x) = true → p x = true) :
    (l.map f).countP p ≤ l.countP p := by
  induction l with
  | nil => simp
  | cons a t ih =>
    simp only [List.map_cons, List.countP_cons]
    have hle : (if p (f a) = true then 1 else 0) ≤ (if p a = true then 1 else 0) := by
      by_cases hp : p (f a) = true
      · simp [hp, h a hp]
      · simp [hp]
    omega

theorem countP_eq_zero_of_any_false {α : Type} (l : List α) (p : α → Bool)
    (h : l.any p = false) : l.countP p = 0 := by
  induction l with
  | nil => rfl
  | cons a t ih =>
    simp only [List.any_cons, Bool.or_eq_false_iff] at h
    simp [List.countP_cons, h.1, ih h.2]

theorem any_of_one_le_countP {α : Type} (l : List α) (p : α → Bool)
    (h : 1 ≤ l.countP p) : l.any p = true := by
  induction l with
  | nil => simp [List.countP_nil] at h
  | cons a t ih =>
    by_cases hp : p a = true
    · simp [hp]
    · simp only [List.countP_cons, hp, if_false, Nat.add_zero] at h
      simp [hp, ih h]

theorem filter_map_eq_nil {α β : Type} (l : List α) (f : α → β) (p : β → Bool)
    (h : ∀ x, p (f x) = false) : (l.map f).filter p = [] := by
  induction l with
  | nil => rfl
  | cons a t ih => simp [List.filter_cons, h, ih]

/-! ## Session lifecycle invariant -/

theorem openCount_applySessOp_le (op : SessOp) (st : SessionState) (c : Nat)
    (h : openCount c st ≤ 1) : openCount c (applySessOp op st) ≤ 1 := by
  cases op with
  | start c' t =>
    simp only [applySessOp, startSession]
    by_cases hg : st.sessions.any (fun s => s.class_id == c' && s.status == "open") = true
    · simp only [hg, if_true]
      exact h
    · simp only [Bool.not_eq_true] at hg
      simp only [hg, Bool.false_eq_true, if_false]
      simp only [openCount, List.countP_append] at h ⊢
      by_cases hc : c' = c
      · subst hc
        have h0 := countP_eq_zero_of_any_false _ _ hg
        simp [List.countP_cons, h0]
      · simp [List.countP_cons, hc]
        omega
  | stop c' t =>
    simp only [applySessOp, stopSession]
    cases hf : st.sessions.find? (fun s => s.class_id == c' && s.status == "open") with
    | none => simpa [hf] using h
    | some act =>
      simp only [hf, openCount]
      refine le_trans (countP_map_le _ _ _ ?_) h
      intro x hx
      by_cases hid : x.session_id == act.session_id
      · simp [hid] at hx
      · simpa [hid] using hx

theorem openCount_foldl_le (ops : List SessOp) (st : SessionState)
    (h : ∀ c, openCount c st ≤ 1) :
    ∀ c, openCount c (ops.foldl (fun st op => applySessOp op st) st) ≤ 1 := by
  induction ops generalizing st with
  | nil => exact h
  | cons op t ih =>
    exact ih _ (fun c => openCount_applySessOp_le op st c (h c))

/-- Claim C3: in every state reachable by any sequence of start and stop
operations, each class has at most one session with status `"open"`; a
start request for a class that already has an open session fails with the
conflict error; and a successful start leaves every existing session row
(in particular every open one) untouched, so stop is the only transition
out of the open status. -/
theorem C3_at_most_one_open_session (ops : List SessOp) (c : Nat) :
    openCount c (runSessOps ops) ≤ 1 ∧
    (∀ t, 1 ≤ openCount c (runSessOps ops) →
      startSession c t (runSessOps ops) = Except.error SessErr.conflict) ∧
    (∀ c' t st', startSession c' t (runSessOps ops) = Except.ok st' →
      ∀ s ∈ (runSessOps ops).sessions, s ∈ st'.sessions) := by
  refine ⟨openCount_foldl_le ops initialSessionState
      (fun c => by simp [initialSessionState, openCount]) c, ?_, ?_⟩
  · intro t h1
    have hany := any_of_one_le_countP _ _ h1
    simp [startSession, hany]
  · intro c' t st' hok s hs
    by_cases hg : (runSessOps ops).sessions.any
        (fun s => s.class_id == c' && s.status == "open") = true
    · simp [startSession, hg] at hok
    · simp only [Bool.not_eq_true] at hg
      simp only [startSession, hg, Bool.false_eq_true, if_false, Except.ok.injEq] at hok
      subst hok
      exact List.mem_append_left _ hs

/-- Witness for C3 at a concrete run: after starting a session for class 1,
the class has exactly one open session and a second start for it is
rejected with the conflict error. -/
theorem C3_witness :
    openCount 1 (runSessOps [SessOp.start 1 0]) ≤ 1 ∧
    startSession 1 0 (runSessOps [SessOp.start 1 0]) =
      Except.error SessErr.conflict := by
  have h := C3_at_most_one_open_session [SessOp.start 1 0] 1
  exact ⟨h.1, h.2.1 0 (by decide)⟩

/-- Claim C8: the late/present resolution is a pure function of the event
timestamp (the ingestion wall-clock), the session start and the configured
late-threshold minutes: it yields `"late"` exactly when the elapsed minutes
strictly exceed the threshold, `"present"` otherwise; with a 09:00 session
start and a 30-minute threshold, an entry at 09:10 resolves to present and
an entry at 09:45 resolves to late. -/
theorem C8_resolver_threshold (now sessionStart th : ℚ) :
    (resolveStatus now sessionStart th = ("late") ↔
      (now - sessionStart) / (1000 * 60) > th) ∧
    (resolveStatus now sessionStart th = ("present") ↔
      ¬((now - sessionStart) / (1000 * 60) > th)) ∧
    resolveStatus (9 * 3600000 + 10 * 60000) (9 * 3600000) 30 = ("present") ∧
    resolveStatus (9 * 3600000 + 45 * 60000) (9 * 3600000) 30 = ("late") := by
  refine ⟨?_, ?_, by norm_num [resolveStatus, isStudentLate],
      by norm_num [resolveStatus, isStudentLate]⟩ <;>
    by_cases hl : (now - sessionStart) / (1000 * 60) > th <;>
      simp [resolveStatus, isStudentLate, hl]

/-! ## Presence ingestion: the ENTER upsert and the EXIT update -/

/-- Counterexample for claim C1: the pair already has a record with entry
timestamp 0, status present and a stored selfie; a second ENTER arrives at
2700000 ms (45 minutes, past the 30-minute threshold) with no image.  The
merge-upsert stores entry timestamp 2700000 — not the earliest of the two,
which is 0 — downgrades the status from present to late, and replaces the
stored evidence with none. -/
theorem C1_counterexample :
    ((recordPresence 2700000 0 30 ("s1") ("in") ("cctv") none
        { events := [],
          attendance := [⟨("s1"), ("present"), some 0, none, none, some ("a")⟩] }).attendance
      = [⟨("s1"), ("late"), some 2700000, none, none, none⟩]) ∧
    min (0 : ℚ) 2700000 ≠ 2700000 ∧ ("late") ≠ ("present") := by
  refine ⟨?_, by norm_num, by decide⟩
  have h : isStudentLate 2700000 0 30 = true := by norm_num [isStudentLate]
  simp [recordPresence, upsertAttendance, resolveStatus, h]

/-- Claim C1 as amended: for an ENTER event on a pair that already has an
AttendanceRecord, the upsert merge overwrites every inserted column — the
stored entry timestamp becomes the new event's timestamp, the status
becomes the status resolved from the new event alone (so a present status
can become late), and the stored evidence is replaced by the new event's
evidence or null, its confidence never examined — while checkout timestamp
and presence minutes are left unchanged. -/
theorem C1_enter_upsert_overwrites (now sessionStart th : ℚ) (p src : String)
    (img : Option String) (s : PresenceState)
    (h : s.attendance.any (fun r => r.student_id == p) = true) :
    (recordPresence now sessionStart th p ("in") src img s).attendance =
      s.attendance.map (fun r =>
        if r.student_id == p then
          { r with status := resolveStatus now sessionStart th,
                   checkin_ts := some now, selfie_url := img }
        else r) := by
  simp [recordPresence, upsertAttendance, h]

/-- Witness for C1 at a concrete input: the pair has a present record with
entry timestamp 0, and a later ENTER at 2700000 rewrites the row through
the overwrite merge. -/
theorem C1_witness :
    (recordPresence 2700000 0 30 ("s1") ("in") ("cctv") none
        { events := [],
          attendance := [⟨("s1"), ("present"), some 0, none, none, some ("a")⟩] }).attendance =
      ([⟨("s1"), ("present"), some 0, none, none, some ("a")⟩] : List AttRow).map
        (fun r =>
          if r.student_id == ("s1") then
            { r with status := resolveStatus 2700000 0 30,
                     checkin_ts := some 2700000, selfie_url := none }
          else r) :=
  C1_enter_upsert_overwrites 2700000 0 30 ("s1") ("cctv") none
    { events := [],
      attendance := [⟨("s1"), ("present"), some 0, none, none, some ("a")⟩] }
    (by decide)

theorem recordPresence_out_attendance (now sessionStart th : ℚ) (p src : String)
    (img : Option String) (s : PresenceState) :
    (recordPresence now sessionStart th p ("out") src img s).attendance =
      s.attendance.map (fun r =>
        if r.student_id == p then { r with checkout_ts := some now } else r) := by
  simp [recordPresence]

/-- Claim C6 as amended: for an EXIT event, the checkout timestamp of every
row of the pair is overwritten with the current event time unconditionally,
and nothing else changes — in particular the accumulated presence duration
is not recomputed. -/
theorem C6_exit_overwrites_checkout (now sessionStart th : ℚ) (p src : String)
    (img : Option String) (s : PresenceState) :
    (recordPresence now sessionStart th p ("out") src img s).attendance =
      s.attendance.map (fun r =>
        if r.student_id == p then { r with checkout_ts := some now } else r) := by
  simp [recordPresence]

/-- Counterexample for claim C6: an ENTER at 0 followed by an EXIT at
300000 and a later-arriving EXIT stamped 200000.  The final record's
checkout timestamp is 200000 — the stored 300000 was overwritten by an
older time, so the update is not only-if-newer — and its presence minutes
are still null instead of the recomputed exit minus first-entry. -/
theorem C6_counterexample :
    ((runEvents 0 30 ("s1") [(("in"), 0), (("out"), 300000), (("out"), 200000)]
        { events := [], attendance := [] }).attendance.map
      (fun r => (r.checkin_ts, r.checkout_ts, r.presence_minutes))
      = [(some 0, some 200000, none)]) ∧
    ¬((200000 : ℚ) > 300000) := by
  refine ⟨?_, by norm_num⟩
  have h : isStudentLate 0 0 30 = false := by norm_num [isStudentLate]
  simp [runEvents, recordPresence, upsertAttendance, resolveStatus, h]

/-- Claim C9: an EXIT event for a pair with no attendance row appends the
event to the presence log but leaves the attendance table exactly as it
was. -/
theorem C9_exit_without_enter (now sessionStart th : ℚ) (p src : String)
    (img : Option String) (s : PresenceState)
    (h : ∀ r ∈ s.attendance, (r.student_id == p) = false) :
    (recordPresence now sessionStart th p ("out") src img s).attendance =
      s.attendance ∧
    (recordPresence now sessionStart th p ("out") src img s).events =
      s.events ++ [⟨p, ("out"), now, src, img⟩] := by
  constructor
  · rw [recordPresence_out_attendance]
    calc s.attendance.map (fun r =>
          if r.student_id == p then { r with checkout_ts := some now } else r)
        = s.attendance.map id := List.map_congr_left (fun r hr => by simp [h r hr])
      _ = s.attendance := List.map_id _
  · simp [recordPresence]

theorem one_le_countP_of_any {α : Type} (l : List α) (p : α → Bool)
    (h : l.any p = true) : 1 ≤ l.countP p := by
  induction l with
  | nil => simp at h
  | cons a t ih =>
    simp only [List.any_cons, Bool.or_eq_true] at h
    rcases h with h | h
    · simp [List.countP_cons, h]
    · have := ih h
      simp only [List.countP_cons]
      omega

theorem rowCount_upsert_eq_one (student status : String) (now : ℚ)
    (selfie : Option String) (att : List AttRow)
    (h : rowCount student att ≤ 1) :
    rowCount student (upsertAttendance student status now selfie att) = 1 := by
  unfold rowCount at h ⊢
  unfold upsertAttendance
  by_cases hany : att.any (fun r => r.student_id == student) = true
  · simp only [hany, if_true]
    rw [countP_map_eq]
    · have h1 := one_le_countP_of_any _ _ hany
      omega
    · intro r
      by_cases hc : (r.student_id == student) = true <;> simp [hc]
  · simp only [Bool.not_eq_true] at hany
    simp only [hany, Bool.false_eq_true, if_false, List.countP_append]
    rw [countP_eq_zero_of_any_false _ _ hany]
    simp [List.countP_cons]

theorem rowCount_recordPresence (now sessionStart th : ℚ) (student : String)
    (ty src : String) (img : Option String) (s : PresenceState)
    (h : rowCount student s.attendance ≤ 1) :
    rowCount student (recordPresence now sessionStart th student ty src img s).attendance =
      (if ty == "in" then 1 else rowCount student s.attendance) := by
  by_cases hin : (ty == "in") = true
  · have hty : ty = "in" := by simpa using hin
    subst hty
    simp only [hin, if_true]
    have : (recordPresence now sessionStart th student ("in") src img s).attendance =
        upsertAttendance student (resolveStatus now sessionStart th) now img s.attendance := by
      simp [recordPresence]
    rw [this]
    exact rowCount_upsert_eq_one _ _ _ _ _ h
  · simp only [Bool.not_eq_true] at hin
    simp only [hin, Bool.false_eq_true, if_false]
    by_cases hout : (ty == "out") = true
    · have hty : ty = "out" := by simpa using hout
      subst hty
      unfold rowCount
      rw [recordPresence_out_attendance]
      apply countP_map_eq
      intro r
      by_cases hc : (r.student_id == student) = true <;> simp [hc]
    · simp only [Bool.not_eq_true] at hout
      simp [recordPresence, hin, hout]

theorem runEvents_rowCount (sessionStart th : ℚ) (student : String)
    (evs : List (String × ℚ)) (s : PresenceState)
    (h : rowCount student s.attendance ≤ 1) :
    rowCount student (runEvents sessionStart th student evs s).attendance =
      (if evs.any (fun e => e.1 == "in") then 1 else rowCount student s.attendance) := by
  induction evs generalizing s with
  | nil => simp [runEvents]
  | cons e t ih =>
    have step : runEvents sessionStart th student (e :: t) s =
        runEvents sessionStart th student t
          (recordPresence e.2 sessionStart th student e.1 ("cctv") none s) := rfl
    have hstep := rowCount_recordPresence e.2 sessionStart th student e.1 ("cctv") none s h
    rw [step]
    by_cases hin : (e.1 == "in") = true
    · have hone : rowCount student
          (recordPresence e.2 sessionStart th student e.1 ("cctv") none s).attendance = 1 := by
        rw [hstep, if_pos hin]
      rw [ih _ (le_of_eq hone)]
      rw [hone]
      simp [List.any_cons, hin]
    · simp only [Bool.not_eq_true] at hin
      have hsame : rowCount student
          (recordPresence e.2 sessionStart th student e.1 ("cctv") none s).attendance =
            rowCount student s.attendance := by
        rw [hstep]
        simp [hin]
      rw [ih _ (hsame ▸ h), hsame, List.any_cons, hin, Bool.false_or]

/-- Claim C4 as amended: starting from a pair with no attendance row, any
sequence of ENTER/EXIT events for the pair (duplicates included) leaves
exactly one AttendanceRecord when the sequence contains at least one ENTER
and none otherwise — never more than one row, and, the upsert being a
conflict-merging insert and the exit path a plain update, never a
duplicate-key error surfaced to a caller. -/
theorem C4_one_row_iff_enter (sessionStart th : ℚ) (student : String)
    (evs : List (String × ℚ)) :
    rowCount student (runEvents sessionStart th student evs
        { events := [], attendance := [] }).attendance =
      (if evs.any (fun e => e.1 == "in") then 1 else 0) ∧
    rowCount student (runEvents sessionStart th student evs
        { events := [], attendance := [] }).attendance ≤ 1 := by
  have h := runEvents_rowCount sessionStart th student evs
    { events := [], attendance := [] } (by simp [rowCount])
  constructor
  · simpa [rowCount] using h
  · rw [h]
    split <;> simp [rowCount]

/-- Counterexample for claim C4: the sequence consisting of a single EXIT
event leaves zero AttendanceRecords for the pair, not exactly one. -/
theorem C4_counterexample :
    rowCount ("s1") (runEvents 0 30 ("s1") [(("out"), 5)]
        { events := [], attendance := [] }).attendance = 0 ∧
    rowCount ("s1") (runEvents 0 30 ("s1") [(("out"), 5)]
        { events := [], attendance := [] }).attendance ≠ 1 := by
  constructor <;> decide

/-- Witness for C9 at a concrete input: the table holds only a row for a
different student, and an EXIT for the pair changes nothing in it. -/
theorem C9_witness :
    (recordPresence 7 0 30 ("s1") ("out") ("cctv") none
        { events := [],
          attendance := [⟨("s2"), ("present"), some 0, none, none, none⟩] }).attendance =
      [⟨("s2"), ("present"), some 0, none, none, none⟩] ∧
    (recordPresence 7 0 30 ("s1") ("out") ("cctv") none
        { events := [],
          attendance := [⟨("s2"), ("present"), some 0, none, none, none⟩] }).events =
      [] ++ [⟨("s1"), ("out"), 7, ("cctv"), none⟩] :=
  C9_exit_without_enter 7 0 30 ("s1") ("cctv") none
    { events := [],
      attendance := [⟨("s2"), ("present"), some 0, none, none, none⟩] }
    (by decide)

/-! ## Reconciliation (force-absent) -/

theorem absentSet_after_insert (enrolled : List String) (att : List AttRow)
    (now : ℚ) (absents : List String) :
    absentSet enrolled (att ++ absents.map (fun s =>
      { student_id := s, status := ("absent"), checkin_ts := some now,
        checkout_ts := none, presence_minutes := none, selfie_url := none })) =
      absentSet enrolled att := by
  unfold absentSet
  rw [List.filter_append,
    filter_map_eq_nil _ _ _ (fun x => rfl),
    List.append_nil]

theorem forceAbsent_eq_of_isEmpty (now : ℚ) (enrolled : List String)
    (att : List AttRow) (h1 : (absentSet enrolled att).isEmpty = true) :
    forceAbsent now enrolled att = Except.ok att := by
  simp [forceAbsent, h1]

theorem forceAbsent_eq_error (now : ℚ) (enrolled : List String)
    (att : List AttRow) (h1 : (absentSet enrolled att).isEmpty = false)
    (h2 : (absentSet enrolled att).any
      (fun s => att.any (fun r => r.student_id == s)) = true) :
    forceAbsent now enrolled att = Except.error DbErr.duplicateKey := by
  simp [forceAbsent, h1, h2]

theorem forceAbsent_eq_insert (now : ℚ) (enrolled : List String)
    (att : List AttRow) (h1 : (absentSet enrolled att).isEmpty = false)
    (h2 : (absentSet enrolled att).any
      (fun s => att.any (fun r => r.student_id == s)) = false) :
    forceAbsent now enrolled att = Except.ok
      (att ++ (absentSet enrolled att).map (fun s =>
        ({ student_id := s, status := ("absent"), checkin_ts := some now,
           checkout_ts := none, presence_minutes := none,
           selfie_url := none } : AttRow))) := by
  simp [forceAbsent, h1, h2]

/-- Counterexample for claim C2: one enrolled student and an empty
attendance table.  The first reconcile run inserts the absent row; the
second run selects the same student again — the absent row does not count
as present or late — and its plain bulk insert hits the
`(session, participant)` unique key, raising a duplicate-key error instead
of skipping, so running reconcile twice is not the same as running it
once. -/
theorem C2_counterexample :
    forceAbsent 0 [("s1")] [] =
      Except.ok [⟨("s1"), ("absent"), some 0, none, none, none⟩] ∧
    forceAbsent 5 [("s1")] [⟨("s1"), ("absent"), some 0, none, none, none⟩] =
      Except.error DbErr.duplicateKey := by
  exact ⟨rfl, rfl⟩

/-- Claim C2 as amended: reconcile is not idempotent — whenever a run finds
a nonempty absent set and succeeds, running it again (at any later time)
raises a duplicate-key error, because the freshly inserted absent rows are
not counted as present or late, the same absent set is recomputed, and the
bulk insert carries no conflict-ignoring clause. -/
theorem C2_second_reconcile_errors (now now' : ℚ) (enrolled : List String)
    (att att' : List AttRow)
    (h : forceAbsent now enrolled att = Except.ok att')
    (hne : absentSet enrolled att ≠ []) :
    forceAbsent now' enrolled att' = Except.error DbErr.duplicateKey := by
  have hois : (absentSet enrolled att).isEmpty = false := by
    cases hA : absentSet enrolled att with
    | nil => exact absurd hA hne
    | cons a as => rfl
  by_cases hdup : (absentSet enrolled att).any
      (fun s => att.any (fun r => r.student_id == s)) = true
  · rw [forceAbsent_eq_error now enrolled att hois hdup] at h
    exact absurd h (by simp)
  · simp only [Bool.not_eq_true] at hdup
    rw [forceAbsent_eq_insert now enrolled att hois hdup] at h
    injection h with h
    subst h
    obtain ⟨a, as, hA⟩ := List.exists_cons_of_ne_nil hne
    have hmem : a ∈ absentSet enrolled att := by
      rw [hA]; exact List.mem_cons_self a as
    apply forceAbsent_eq_error now'
    · rw [absentSet_after_insert]
      exact hois
    · rw [absentSet_after_insert]
      refine List.any_eq_true.mpr ⟨a, hmem, List.any_eq_true.mpr
        ⟨_, List.mem_append_right _ (List.mem_map_of_mem _ hmem), ?_⟩⟩
      simp

/-- Witness for C2 at a concrete input: a successful first run over one
enrolled student and an empty table makes the second run fail with the
duplicate-key error. -/
theorem C2_witness :
    forceAbsent 5 [("s1")] [⟨("s1"), ("absent"), some 0, none, none, none⟩] =
      Except.error DbErr.duplicateKey :=
  C2_second_reconcile_errors 0 5 [("s1")] []
    [⟨("s1"), ("absent"), some 0, none, none, none⟩] rfl (by decide)

/-- Counterexample for claim C7: reconciliation at time 100 for one
enrolled student with no events creates the absent row with entry
timestamp 100 — `checkin_ts: new Date()` in the insert — not a null entry
timestamp. -/
theorem C7_counterexample :
    forceAbsent 100 [("s1")] [] =
      Except.ok [⟨("s1"), ("absent"), some 100, none, none, none⟩] ∧
    some (100 : ℚ) ≠ (none : Option ℚ) := by
  exact ⟨rfl, by simp⟩

/-- Claim C7 as amended: every row created by a successful reconcile run
has status absent, entry timestamp equal to the reconciliation run's
wall-clock time (not null), and null exit timestamp and presence
minutes. -/
theorem C7_reconcile_rows_absent (now : ℚ) (enrolled : List String)
    (att att' : List AttRow) (h : forceAbsent now enrolled att = Except.ok att') :
    ∀ r ∈ att', r ∈ att ∨
      (r.status = ("absent") ∧ r.checkin_ts = some now ∧
       r.checkout_ts = none ∧ r.presence_minutes = none) := by
  unfold forceAbsent at h
  by_cases h1 : (absentSet enrolled att).isEmpty = true
  · rw [if_pos h1] at h
    injection h with h
    subst h
    exact fun r hr => Or.inl hr
  · rw [if_neg h1] at h
    by_cases h2 : (absentSet enrolled att).any
        (fun s => att.any (fun r => r.student_id == s)) = true
    · rw [if_pos h2] at h
      exact absurd h (by simp)
    · rw [if_neg h2] at h
      injection h with h
      subst h
      intro r hr
      rcases List.mem_append.mp hr with hmem | hmem
      · exact Or.inl hmem
      · rcases List.mem_map.mp hmem with ⟨sid, hs, rfl⟩
        exact Or.inr ⟨rfl, rfl, rfl, rfl⟩

/-- Witness for C7 at a concrete input: the single row created by the run
at time 100 is absent with entry timestamp 100 and null exit fields. -/
theorem C7_witness :
    (⟨("s1"), ("absent"), some 100, none, none, none⟩ : AttRow) ∈ ([] : List AttRow) ∨
    ((⟨("s1"), ("absent"), some 100, none, none, none⟩ : AttRow).status = ("absent") ∧
     (⟨("s1"), ("absent"), some 100, none, none, none⟩ : AttRow).checkin_ts = some 100 ∧
     (⟨("s1"), ("absent"), some 100, none, none, none⟩ : AttRow).checkout_ts = none ∧
     (⟨("s1"), ("absent"), some 100, none, none, none⟩ : AttRow).presence_minutes = none) :=
  C7_reconcile_rows_absent 100 [("s1")] []
    [⟨("s1"), ("absent"), some 100, none, none, none⟩] rfl
    ⟨("s1"), ("absent"), some 100, none, none, none⟩ (by simp)

/-! ## Session stop and reconciliation triggering -/

/-- Counterexample for claim C5: a state with one open session for class 1,
one enrolled student and an empty attendance table.  The stop route closes
the session but leaves the attendance table empty, while a stop that
triggered the reconciliation job — `stopWithReconcileSpec`, written from
the spec's words — would have inserted the absent row: the two disagree,
so stop does not trigger reconciliation. -/
theorem C5_counterexample :
    stopHandler 1 10 ⟨[⟨1, 1, 0, none, ("open")⟩], 2, []⟩ [] =
      Except.ok (⟨[⟨1, 1, 0, some 10, ("closed")⟩], 2, [(1, ("stopped"))]⟩,
        ([] : List AttRow)) ∧
    stopWithReconcileSpec 1 10 ⟨[⟨1, 1, 0, none, ("open")⟩], 2, []⟩ [("s1")] [] =
      Except.ok (⟨[⟨1, 1, 0, some 10, ("closed")⟩], 2, [(1, ("stopped"))]⟩,
        [⟨("s1"), ("absent"), some 10, none, none, none⟩]) ∧
    ([] : List AttRow) ≠ [⟨("s1"), ("absent"), some 10, none, none, none⟩] := by
  exact ⟨rfl, rfl, by simp⟩

/-- Claim C5 as amended: for a class with an open session, stop succeeds,
sets the session's end timestamp to the stop time, sets its status to
closed, appends the "stopped" lifecycle transition to the realtime
broadcast log — and performs no reconciliation: the attendance table is
returned exactly as it was. -/
theorem C5_stop_closes_without_reconcile (classId : Nat) (now : ℚ)
    (st : SessionState) (att : List AttRow) (act : Session)
    (h : st.sessions.find? (fun s => s.class_id == classId && s.status == "open") =
      some act) :
    stopHandler classId now st att = Except.ok
      ({ sessions := st.sessions.map (fun s =>
            if s.session_id == act.session_id then
              { s with end_ts := some now, status := ("closed") }
            else s),
         nextId := st.nextId,
         broadcasts := st.broadcasts ++ [(act.session_id, ("stopped"))] }, att) := by
  simp [stopHandler, stopSession, h, Except.map]

/-- Witness for C5 at a concrete input: stopping class 1's open session 1
at time 10 closes it, broadcasts "stopped", and hands back the untouched
(empty) attendance table. -/
theorem C5_witness :
    stopHandler 1 10 ⟨[⟨1, 1, 0, none, ("open")⟩], 2, []⟩ [] = Except.ok
      (⟨[(⟨1, 1, 0, none, ("open")⟩ : Session)].map (fun s =>
          if s.session_id == (⟨1, 1, 0, none, ("open")⟩ : Session).session_id then
            { s with end_ts := some 10, status := ("closed") }
          else s),
        2, [] ++ [((⟨1, 1, 0, none, ("open")⟩ : Session).session_id, ("stopped"))]⟩, []) :=
  C5_stop_closes_without_reconcile 1 10 ⟨[⟨1, 1, 0, none, ("open")⟩], 2, []⟩ []
    ⟨1, 1, 0, none, ("open")⟩ rfl

/-! ## Face check-in guard -/

/-- Claim C10: the check-in operation writes — an appended presence event
and the merge-upserted attendance row — exactly when the match collaborator
answered and its decision is matched with the caller's own id; when the
match is negative, names another participant, or the collaborator call
failed, the response is a failure and both tables are left untouched. -/
theorem C10_checkin_writes_iff_match (ml : Option MatchResult) (caller : String)
    (now sessionStart th : ℚ) (url : String) (s : PresenceState) :
    ((checkin ml caller now sessionStart th url s).2 ≠ s ↔
      ml = some ⟨true, caller⟩) ∧
    (ml = some ⟨true, caller⟩ →
      (checkin ml caller now sessionStart th url s).1 =
        CheckinResp.ok (resolveStatus now sessionStart th) ∧
      (checkin ml caller now sessionStart th url s).2.events =
        s.events ++ [⟨caller, ("in"), now, ("face"), some url⟩] ∧
      (checkin ml caller now sessionStart th url s).2.attendance =
        upsertAttendance caller (resolveStatus now sessionStart th) now (some url)
          s.attendance) ∧
    ((checkin ml caller now sessionStart th url s).2 = s →
      (checkin ml caller now sessionStart th url s).1 = CheckinResp.mlError ∨
      (checkin ml caller now sessionStart th url s).1 = CheckinResp.matchFailed) := by
  cases ml with
  | none =>
    refine ⟨?_, ?_, fun _ => Or.inl rfl⟩
    · simp [checkin]
    · intro hml
      exact absurd hml (by simp)
  | some r =>
    obtain ⟨m, sid⟩ := r
    by_cases hm : (m && (sid == caller)) = true
    · obtain ⟨hm1, hm2'⟩ : m = true ∧ sid = caller := by simpa using hm
      subst hm1
      subst hm2'
      have hck1 : (checkin (some ⟨true, sid⟩) sid now sessionStart th url s).1 =
          CheckinResp.ok (resolveStatus now sessionStart th) := by
        simp [checkin]
      have hck2 : (checkin (some ⟨true, sid⟩) sid now sessionStart th url s).2.events =
          s.events ++ [⟨sid, ("in"), now, ("face"), some url⟩] := by
        simp [checkin]
      have hck3 : (checkin (some ⟨true, sid⟩) sid now sessionStart th url s).2.attendance =
          upsertAttendance sid (resolveStatus now sessionStart th) now (some url)
            s.attendance := by
        simp [checkin]
      have hne : (checkin (some ⟨true, sid⟩) sid now sessionStart th url s).2 ≠ s := by
        intro hEq
        have hev := congrArg PresenceState.events hEq
        rw [hck2] at hev
        have hlen := congrArg List.length hev
        simp only [List.length_append, List.length_cons, List.length_nil] at hlen
        omega
      refine ⟨⟨fun _ => rfl, fun _ => hne⟩, fun _ => ⟨hck1, hck2, hck3⟩,
        fun hEq => absurd hEq hne⟩
    · have hs : (checkin (some ⟨m, sid⟩) caller now sessionStart th url s).2 = s := by
        simp [checkin, hm]
      have hml : ¬(some (⟨m, sid⟩ : MatchResult) = some ⟨true, caller⟩) := by
        intro hml
        injection hml with hml
        injection hml with h1 h2
        subst h1
        subst h2
        simp at hm
      refine ⟨⟨fun hne => absurd hs hne, fun h => absurd h hml⟩,
        fun h => absurd h hml, fun _ => Or.inr ?_⟩
      simp [checkin, hm]

/-- Witness for C10 at a concrete input: a positive match naming the caller
records the event and the upserted row and answers with the resolved
status. -/
theorem C10_witness :
    (checkin (some ⟨true, ("u1")⟩) ("u1") 0 0 30 ("http://x/1.jpg")
        { events := [], attendance := [] }).1 =
      CheckinResp.ok (resolveStatus 0 0 30) ∧
    (checkin (some ⟨true, ("u1")⟩) ("u1") 0 0 30 ("http://x/1.jpg")
        { events := [], attendance := [] }).2.events =
      [] ++ [⟨("u1"), ("in"), 0, ("face"), some ("http://x/1.jpg")⟩] ∧
    (checkin (some ⟨true, ("u1")⟩) ("u1") 0 0 30 ("http://x/1.jpg")
        { events := [], attendance := [] }).2.attendance =
      upsertAttendance ("u1") (resolveStatus 0 0 30) 0 (some ("http://x/1.jpg")) [] :=
  (C10_checkin_writes_iff_match (some ⟨true, ("u1")⟩) ("u1") 0 0 30
    ("http://x/1.jpg") { events := [], attendance := [] }).2.1 rfl

end LabFace
